import Mathlib

/-!
# Verification of the angelcard UI-test repository

A shallow embedding, in Lean 4, of the logic of the `angelcardus` repository:

* the webhook receiver (`ui/webhooks/server.js`): HMAC-SHA256 signature
  verification and the three HTTP endpoints;
* the Playwright page objects (`BasePage`, `HomePage`, `PlatformPage`):
  element-visibility resolution, the cookie-consent handler, the navigation
  click operations and login-option enumeration.

The browser driver (Playwright) is an external collaborator.  It is embedded
as a `Page` value: a bundle of capabilities (text probe, element counting,
per-element visibility probes, clicks, load waits), each of which may fail
with a JavaScript error.  The page-object methods are then translated
statement by statement from the source; `await x.catch(() => d)` becomes
`catchD x d`, an unguarded `await` becomes monadic bind in `Except`.

Machine integers: SHA-256 words are `Nat` reduced modulo `2 ^ 32` (`w32`),
bytes are `Nat` below `256`.  JavaScript strings are Lean `String`s; the
`hmac.update(string)` byte view is an explicit UTF-8 encoder.
-/

/-! ## Bytes and 32-bit words -/

/-- Reduce to a 32-bit word, the implicit arithmetic of the JS `crypto`
SHA-256 core. -/
def w32 (n : Nat) : Nat := n % 4294967296

/-- Low byte of a natural number. -/
def byteOf (n : Nat) : Nat := n % 256

/-- Right-rotation of a 32-bit word by `n` places. -/
def rotr (n x : Nat) : Nat := w32 (x / 2 ^ n + x % 2 ^ n * 2 ^ (32 - n))

/-- Logical right shift of a 32-bit word. -/
def shr (n x : Nat) : Nat := x / 2 ^ n

/-- SHA-256 `Ch` function. -/
def sha256Ch (x y z : Nat) : Nat := (x &&& y) ^^^ ((x ^^^ 4294967295) &&& z)

/-- SHA-256 `Maj` function. -/
def sha256Maj (x y z : Nat) : Nat := (x &&& y) ^^^ (x &&& z) ^^^ (y &&& z)

/-- SHA-256 big sigma 0. -/
def bigSigma0 (x : Nat) : Nat := rotr 2 x ^^^ rotr 13 x ^^^ rotr 22 x

/-- SHA-256 big sigma 1. -/
def bigSigma1 (x : Nat) : Nat := rotr 6 x ^^^ rotr 11 x ^^^ rotr 25 x

/-- SHA-256 small sigma 0. -/
def smallSigma0 (x : Nat) : Nat := rotr 7 x ^^^ rotr 18 x ^^^ shr 3 x

/-- SHA-256 small sigma 1. -/
def smallSigma1 (x : Nat) : Nat := rotr 17 x ^^^ rotr 19 x ^^^ shr 10 x

/-- The 64 SHA-256 round constants (FIPS 180-4). -/
def sha256K : List Nat :=
  [1116352408, 1899447441, 3049323471, 3921009573, 961987163,
   1508970993, 2453635748, 2870763221, 3624381080, 310598401,
   607225278, 1426881987, 1925078388, 2162078206, 2614888103,
   3248222580, 3835390401, 4022224774, 264347078, 604807628,
   770255983, 1249150122, 1555081692, 1996064986, 2554220882,
   2821834349, 2952996808, 3210313671, 3336571891, 3584528711,
   113926993, 338241895, 666307205, 773529912, 1294757372,
   1396182291, 1695183700, 1986661051, 2177026350, 2456956037,
   2730485921, 2820302411, 3259730800, 3345764771, 3516065817,
   3600352804, 4094571909, 275423344, 430227734, 506948616,
   659060556, 883997877, 958139571, 1322822218, 1537002063,
   1747873779, 1955562222, 2024104815, 2227730452, 2361852424,
   2428436474, 2756734187, 3204031479, 3329325298]

/-- The eight 32-bit words of the SHA-256 working state. -/
structure Hash8 where
  a : Nat
  b : Nat
  c : Nat
  d : Nat
  e : Nat
  f : Nat
  g : Nat
  h : Nat

/-- SHA-256 initial hash value (FIPS 180-4). -/
def sha256H0 : Hash8 :=
  ⟨1779033703, 3144134277, 1013904242, 2773480762,
   1359893119, 2600822924, 528734635, 1541459225⟩

/-- Next word of the message schedule from the words produced so far
(`w[i] = σ1 w[i-2] + w[i-7] + σ0 w[i-15] + w[i-16] mod 2^32`). -/
def nextScheduleWord (ws : List Nat) : Nat :=
  let n := ws.length
  w32 (smallSigma1 (ws.getD (n - 2) 0) + ws.getD (n - 7) 0 +
       smallSigma0 (ws.getD (n - 15) 0) + ws.getD (n - 16) 0)

/-- Extend the schedule by `k` further words. -/
def extendSchedule : Nat → List Nat → List Nat
  | 0, ws => ws
  | k + 1, ws => extendSchedule k (ws ++ [nextScheduleWord ws])

/-- One SHA-256 compression round, consuming a `(constant, schedule word)`
pair. -/
def sha256Round (st : Hash8) (kw : Nat × Nat) : Hash8 :=
  let t1 := w32 (st.h + bigSigma1 st.e + sha256Ch st.e st.f st.g + kw.1 + kw.2)
  let t2 := w32 (bigSigma0 st.a + sha256Maj st.a st.b st.c)
  ⟨w32 (t1 + t2), st.a, st.b, st.c, w32 (st.d + t1), st.e, st.f, st.g⟩

/-- SHA-256 compression of one 16-word block into the chaining state. -/
def sha256Compress (st : Hash8) (block : List Nat) : Hash8 :=
  let ws := extendSchedule 48 block
  let r := (sha256K.zip ws).foldl sha256Round st
  ⟨w32 (st.a + r.a), w32 (st.b + r.b), w32 (st.c + r.c), w32 (st.d + r.d),
   w32 (st.e + r.e), w32 (st.f + r.f), w32 (st.g + r.g), w32 (st.h + r.h)⟩

/-- Big-endian 32-bit words from a byte list (length a multiple of 4). -/
def bytesToWords : List Nat → List Nat
  | b0 :: b1 :: b2 :: b3 :: rest =>
      (b0 * 16777216 + b1 * 65536 + b2 * 256 + b3) :: bytesToWords rest
  | _ => []

/-- The message bit length as 8 big-endian bytes. -/
def lengthBytes (n : Nat) : List Nat :=
  [byteOf (n / 2 ^ 56), byteOf (n / 2 ^ 48), byteOf (n / 2 ^ 40),
   byteOf (n / 2 ^ 32), byteOf (n / 2 ^ 24), byteOf (n / 2 ^ 16),
   byteOf (n / 2 ^ 8), byteOf n]

/-- SHA-256 padding: append `0x80`, zero bytes to 56 mod 64, then the 64-bit
big-endian bit length. -/
def sha256Pad (msg : List Nat) : List Nat :=
  let zeros := (64 - (msg.length + 9) % 64) % 64
  msg ++ [128] ++ List.replicate zeros 0 ++ lengthBytes (msg.length * 8)

/-- Split a byte list into chunks of 64. -/
def chunks64 (l : List Nat) : List (List Nat) :=
  if h : l = [] then []
  else (l.take 64) :: chunks64 (l.drop 64)
termination_by l.length
decreasing_by
  simp only [List.length_drop]
  exact Nat.sub_lt (List.length_pos.mpr h) (by norm_num)

/-- The four big-endian bytes of a 32-bit word. -/
def wordBytes (w : Nat) : List Nat :=
  [byteOf (w / 16777216), byteOf (w / 65536), byteOf (w / 256), byteOf w]

/-- The 32 digest bytes of a final SHA-256 state. -/
def digestBytes (st : Hash8) : List Nat :=
  wordBytes st.a ++ wordBytes st.b ++ wordBytes st.c ++ wordBytes st.d ++
  wordBytes st.e ++ wordBytes st.f ++ wordBytes st.g ++ wordBytes st.h

/-- SHA-256 of a byte string, as 32 digest bytes — the function behind
Node's `createHmac('sha256', …)` inner and outer hashes. -/
def sha256 (msg : List Nat) : List Nat :=
  digestBytes ((chunks64 (sha256Pad msg)).foldl
    (fun st block => sha256Compress st (bytesToWords block)) sha256H0)

/-- HMAC key preparation: hash keys longer than the 64-byte block, then
zero-pad to the block size. -/
def hmacKeyPrep (key : List Nat) : List Nat :=
  let k := if key.length > 64 then sha256 key else key
  k ++ List.replicate (64 - k.length) 0

/-- HMAC-SHA256 (RFC 2104), the function computed by
`createHmac('sha256', secret).update(message)`. -/
def hmacSha256 (key msg : List Nat) : List Nat :=
  let k := hmacKeyPrep key
  let ipad := k.map (fun b => b ^^^ 0x36)
  let opad := k.map (fun b => b ^^^ 0x5c)
  sha256 (opad ++ sha256 (ipad ++ msg))

/-! ## Hex encoding and UTF-8 -/

/-- Lowercase hex digit for a value below 16 (`digest('hex')` alphabet). -/
def hexChar (n : Nat) : Char :=
  if n < 10 then Char.ofNat (48 + n) else Char.ofNat (87 + n)

/-- Two hex digits of one byte. -/
def hexByte (b : Nat) : List Char := [hexChar (b / 16), hexChar (b % 16)]

/-- Lowercase hex string of a byte list, as `digest('hex')` produces. -/
def hexDigest : List Nat → String
  | [] => ""
  | b :: bs => String.mk (hexByte b) ++ hexDigest bs

/-- UTF-8 encoding of one character (Node buffers strings as UTF-8). -/
def utf8EncodeChar (c : Char) : List Nat :=
  let n := c.toNat
  if n < 128 then [n]
  else if n < 2048 then [192 + n / 64, 128 + n % 64]
  else if n < 65536 then [224 + n / 4096, 128 + n / 64 % 64, 128 + n % 64]
  else [240 + n / 262144, 128 + n / 4096 % 64, 128 + n / 64 % 64, 128 + n % 64]

/-- UTF-8 bytes of a string. -/
def strUtf8 (s : String) : List Nat :=
  (s.data.map utf8EncodeChar).flatten

/-! ## JSON values and `JSON.stringify`

`express.json()` hands the route handlers a parsed JSON value; the signature
is computed over `JSON.stringify` of that value.  JSON numbers are modelled
as integers (every payload this repo documents uses strings and objects; the
claims do not depend on float formatting). -/

/-- A parsed JSON value (`req.body`). -/
inductive Json where
  | null : Json
  | bool (b : Bool) : Json
  | num (n : Int) : Json
  | str (s : String) : Json
  | arr (xs : List Json) : Json
  | obj (fields : List (String × Json)) : Json

/-- `JSON.stringify` escaping of one string character. -/
def escapeChar (c : Char) : List Char :=
  if c = '"' then ['\\', '"']
  else if c = '\\' then ['\\', '\\']
  else if c = Char.ofNat 8 then ['\\', 'b']
  else if c = Char.ofNat 12 then ['\\', 'f']
  else if c = Char.ofNat 10 then ['\\', 'n']
  else if c = Char.ofNat 13 then ['\\', 'r']
  else if c = Char.ofNat 9 then ['\\', 't']
  else if c.toNat < 32 then
    ['\\', 'u', '0', '0', hexChar (c.toNat / 16), hexChar (c.toNat % 16)]
  else [c]

/-- `JSON.stringify` of a string value: escaped and double-quoted. -/
def stringifyString (s : String) : String :=
  "\"" ++ String.mk ((s.data.map escapeChar).flatten) ++ "\""

mutual

/-- `JSON.stringify` of a value. -/
def Json.stringify : Json → String
  | .null => "null"
  | .bool b => if b then "true" else "false"
  | .num n => toString n
  | .str s => stringifyString s
  | .arr xs => "[" ++ stringifyArr xs ++ "]"
  | .obj fs => "\x7b" ++ stringifyObj fs ++ "\x7d"

/-- Comma-joined stringification of array elements. -/
def stringifyArr : List Json → String
  | [] => ""
  | [x] => Json.stringify x
  | x :: y :: xs => Json.stringify x ++ "," ++ stringifyArr (y :: xs)

/-- Comma-joined stringification of object members. -/
def stringifyObj : List (String × Json) → String
  | [] => ""
  | [kv] => stringifyString kv.1 ++ ":" ++ Json.stringify kv.2
  | kv :: kv2 :: xs =>
      stringifyString kv.1 ++ ":" ++ Json.stringify kv.2 ++ "," ++
      stringifyObj (kv2 :: xs)

end

/-! ## The webhook receiver (`ui/webhooks/server.js`) -/

/-- `verifySignature` (server.js lines 22–26): rebuild
`'sha256=' + hmac.update(JSON.stringify(payload)).digest('hex')` over the
secret and compare it with the presented header string.  The module-level
`WEBHOOK_SECRET` is passed explicitly. -/
def verifySignature (secret : String) (signature : String) (payload : Json) : Bool :=
  signature == "sha256=" ++ hexDigest (hmacSha256 (strUtf8 secret) (strUtf8 payload.stringify))

/-- The signature string `verifySignature` accepts for a given payload. -/
def expectedSignature (secret : String) (payload : Json) : String :=
  "sha256=" ++ hexDigest (hmacSha256 (strUtf8 secret) (strUtf8 payload.stringify))

/-- An incoming webhook request: the (lowercased) `x-webhook-signature`
header, if present, and the parsed JSON body. -/
structure WebhookRequest where
  signatureHeader : Option String
  body : Json

/-- An HTTP response the route handlers produce: status code and JSON body. -/
structure WebhookResponse where
  status : Nat
  body : Json

/-- `401 {error:"Invalid signature"}`. -/
def invalidSignatureResponse : WebhookResponse :=
  ⟨401, Json.obj [("error", Json.str "Invalid signature")]⟩

/-- `200 {status:"success"}`. -/
def successResponse : WebhookResponse :=
  ⟨200, Json.obj [("status", Json.str "success")]⟩

/-- `200 {status:"healthy"}`. -/
def healthyResponse : WebhookResponse :=
  ⟨200, Json.obj [("status", Json.str "healthy")]⟩

/-- Property lookup on a parsed body (`req.body.key`); `none` is JS
`undefined`. -/
def jsonLookup (j : Json) (key : String) : Option Json :=
  match j with
  | .obj fs =>
      match fs.find? (fun kv => kv.1 == key) with
      | some kv => some kv.2
      | none => none
  | _ => none

/-- `POST /webhook/test-results` (server.js lines 31–49).  The boolean
records whether the handler body past the signature gate executed.  A missing
header is JS-falsy, as is the empty string, hence the two early 401 exits.
After the gate the handler destructures the body and reads
`testResults.summary`: when `testResults` is absent or `null` that property
read throws a `TypeError`, which escapes the route handler (Express then
reports a server error, not the 200 success response). -/
def testResultsHandler (secret : String) (req : WebhookRequest) :
    Except String (WebhookResponse × Bool) :=
  match req.signatureHeader with
  | none => .ok (invalidSignatureResponse, false)
  | some sig =>
    if sig = "" then .ok (invalidSignatureResponse, false)
    else if verifySignature secret sig req.body then
      match jsonLookup req.body "testResults" with
      | none => .error "TypeError: Cannot read properties of undefined (reading 'summary')"
      | some Json.null => .error "TypeError: Cannot read properties of null (reading 'summary')"
      | some _ => .ok (successResponse, true)
    else .ok (invalidSignatureResponse, false)

/-- `POST /webhook/ci-trigger` (server.js lines 54–72).  Same gate; the
handler body only interpolates the destructured fields into log strings, so
it never throws. -/
def ciTriggerHandler (secret : String) (req : WebhookRequest) :
    Except String (WebhookResponse × Bool) :=
  match req.signatureHeader with
  | none => .ok (invalidSignatureResponse, false)
  | some sig =>
    if sig = "" then .ok (invalidSignatureResponse, false)
    else if verifySignature secret sig req.body then .ok (successResponse, true)
    else .ok (invalidSignatureResponse, false)

/-- `GET /health` (server.js lines 77–79). -/
def healthHandler (_req : WebhookRequest) : WebhookResponse := healthyResponse

/-- The signature gate as the spec words it: a header is accepted when it is
present and verifies against the body. -/
def signatureAccepted (secret : String) (req : WebhookRequest) : Bool :=
  match req.signatureHeader with
  | none => false
  | some sig => verifySignature secret sig req.body

/-! ## The browser page model

The Playwright driver is external; the page objects consume it through the
capability surface below.  A `Query` is the description the source hands to
the driver (`page.locator(css)`, `page.getByRole(…)`, or a locator scoped
inside another); the page decides, per query, how many elements match, which
of them are visible, and whether any probe or click fails with a driver
error.  `.first()` in the source is element index `0`. -/

/-- A locator description as constructed by the source. -/
inductive Query where
  | css (selector : String) : Query
  | roleButton (namePattern : String) : Query
  | roleLink (namePattern : String) : Query
  | within (outerSelector : String) (innerSelector : String) : Query
deriving DecidableEq

/-- An error thrown by the driver or by the page-object code itself.
`affordanceNotFound` is representable so that the spec's typed condition can
be stated; the source never constructs it. -/
inductive JsError where
  | timeout (msg : String) : JsError
  | generic (msg : String) : JsError
  | affordanceNotFound (candidates : List String) : JsError
deriving DecidableEq

deriving instance DecidableEq for Except

/-- The capability surface of a live Playwright page.  Every probe may fail;
clicks, when they succeed, yield the page reached afterwards. -/
inductive Page where
  | mk
      (bodyInnerText : Except JsError String)
      (screenshot : Except JsError Unit)
      (countQ : Query → Except JsError Nat)
      (visNth : Query → Nat → Except JsError Bool)
      (visLoc : Query → Except JsError Bool)
      (clickNth : Query → Nat → Except JsError Page)
      (clickLoc : Query → Except JsError Page)
      (url : String)
      (loadState : Except JsError Unit)

/-- `page.evaluate(() => document.body.innerText …)`. -/
def Page.bodyInnerText : Page → Except JsError String
  | .mk v _ _ _ _ _ _ _ _ => v

/-- `page.screenshot(…)`. -/
def Page.screenshot : Page → Except JsError Unit
  | .mk _ v _ _ _ _ _ _ _ => v

/-- `locator.count()`. -/
def Page.countQ : Page → Query → Except JsError Nat
  | .mk _ _ v _ _ _ _ _ _ => v

/-- `locator.nth(i).isVisible()` (and `.first().isVisible()` at index 0). -/
def Page.visNth : Page → Query → Nat → Except JsError Bool
  | .mk _ _ _ v _ _ _ _ _ => v

/-- Bare `locator.isVisible()` on a possibly multi-match locator. -/
def Page.visLoc : Page → Query → Except JsError Bool
  | .mk _ _ _ _ v _ _ _ _ => v

/-- `locator.nth(i).click()` (and `.first().click()` at index 0). -/
def Page.clickNth : Page → Query → Nat → Except JsError Page
  | .mk _ _ _ _ _ v _ _ _ => v

/-- Bare `locator.click()`. -/
def Page.clickLoc : Page → Query → Except JsError Page
  | .mk _ _ _ _ _ _ v _ _ => v

/-- `page.url()`. -/
def Page.url : Page → String
  | .mk _ _ _ _ _ _ _ v _ => v

/-- `page.waitForLoadState('load')`. -/
def Page.loadState : Page → Except JsError Unit
  | .mk _ _ _ _ _ _ _ _ v => v

/-- `await e.catch(() => d)`: the value, or the fallback when the promise
rejects. -/
def catchD {α : Type} : Except JsError α → α → α
  | .ok a, _ => a
  | .error _, d => d

/-! ## `BasePage` (source `BasePage.js`) -/

/-- `BasePage.waitForPageLoad`: an unguarded `waitForLoadState('load')`
followed by a `try` block whose waits (`body`, the `nav`/`header` race) are
all caught and logged — only the load-state wait can propagate. -/
def BasePage.waitForPageLoad (p : Page) : Except JsError Unit :=
  match p.loadState with
  | .error e => .error e
  | .ok _ => .ok ()

/-- The per-index visibility scan of `BasePage.isVisible`'s multi-element
branch: `for (let i = 0; i < n; i++) if (await nth(i).isVisible().catch(false)) return true`. -/
def anyVisibleBelow (p : Page) (q : Query) (n : Nat) : Bool :=
  (List.range n).any (fun i => catchD (p.visNth q i) false)

/-- `BasePage.isVisible` (lines 52–75): count with a `.catch(() => 0)`;
with several matches scan every one of them for a visible element; with one
match probe it directly; with none report `false`.  Every probe failure is
absorbed into `false`, and the surrounding `try` also returns `false`. -/
def BasePage.isVisible (p : Page) (q : Query) : Except JsError Bool :=
  let count := catchD (p.countQ q) 0
  if count > 1 then .ok (anyVisibleBelow p q count)
  else if count == 1 then .ok (catchD (p.visLoc q) false)
  else .ok false

/-- `a.startsWith b` on character lists (helper for the JS `includes`). -/
def charsStart : List Char → List Char → Bool
  | [], _ => true
  | _ :: _, [] => false
  | a :: as, b :: bs => a == b && charsStart as bs

/-- Scan of the haystack for an occurrence of the needle. -/
def strIncludesGo (needle : List Char) : List Char → Bool
  | [] => needle.isEmpty
  | c :: rest => charsStart needle (c :: rest) || strIncludesGo needle rest

/-- JS `String.prototype.includes`: the needle occurs as a contiguous
substring of the haystack. -/
def strIncludes (hay needle : String) : Bool :=
  strIncludesGo needle.data hay.data

/-- JS `String.prototype.toLowerCase` on the ASCII range. -/
def jsToLower (s : String) : String :=
  String.mk (s.data.map (fun c =>
    if 65 <= c.toNat && c.toNat <= 90 then Char.ofNat (c.toNat + 32) else c))

/-- The cookie keyword probe run inside `page.evaluate` (lines 103–110). -/
def hasCookieKeywords (text : String) : Bool :=
  strIncludes (jsToLower text) "cookie" ||
  strIncludes (jsToLower text) "consent" ||
  strIncludes (jsToLower text) "privacy"

/-- Method 1's locator: `page.locator('[data-cky-tag="accept-button"]')`. -/
def dataAttrQuery : Query := .css "[data-cky-tag=\"accept-button\"]"

/-- Method 2's locator: `getByRole('button', { name: /Accept|Accept All|OK|Agree/i })`. -/
def roleAcceptQuery : Query := .roleButton "Accept|Accept All|OK|Agree"

/-- Method 3's fixed banner container selector list (lines 154–160). -/
def cookieBannerSelectors : List String :=
  [".cookie-banner", ".cookie-consent", ".cookie-notice", ".gdpr-banner",
   ".cky-consent-container"]

/-- The accept control looked up inside a visible banner container. -/
def bannerAcceptInner : String :=
  "button:has-text(\"Accept\"), button:has-text(\"OK\"), button:has-text(\"Agree\")"

/-- What one `acceptCookies` run did. -/
inductive CookieOutcome where
  | noBanner : CookieOutcome
  | clickedDataAttr : CookieOutcome
  | clickedByRole (found : Nat) : CookieOutcome
  | clickedBanner (selector : String) : CookieOutcome
  | exhausted : CookieOutcome
  | errorCaught : CookieOutcome
deriving DecidableEq

/-- Method 3 of `acceptCookies`: walk the banner selector list; on the first
container whose `.first()` is visible (probe failures read as invisible),
click the accept control inside it — the click itself is caught — and stop.
Falling off the list is the logged no-op ending. -/
def cookieMethod3 (p : Page) : List String → CookieOutcome × List (Query × Nat)
  | [] => (CookieOutcome.exhausted, [])
  | sel :: rest =>
    if catchD (p.visNth (.css sel) 0) false then
      (CookieOutcome.clickedBanner sel, [(Query.within sel bannerAcceptInner, 0)])
    else cookieMethod3 p rest

/-- `BasePage.acceptCookies` (lines 96–180), returning what happened and the
clicks attempted.  The screenshot and the `page.evaluate` keyword probe are
not guarded, so their failures propagate; every later step is individually
caught.  Method 1 fires when the data-attribute button's `.first()` is
visible; Method 2 when the role query's `count()` succeeds and is positive
(a count failure falls through to Method 3 via the `try`); Method 3 scans
the banner container list.  Each firing method returns at once — also when
its guarded click fails. -/
def BasePage.acceptCookies (p : Page) :
    Except JsError (CookieOutcome × List (Query × Nat)) :=
  match p.screenshot with
  | .error e => .error e
  | .ok _ =>
    match p.bodyInnerText with
    | .error e => .error e
    | .ok text =>
      if !hasCookieKeywords text then
        .ok (CookieOutcome.noBanner, [])
      else if catchD (p.visNth dataAttrQuery 0) false then
        .ok (CookieOutcome.clickedDataAttr, [(dataAttrQuery, 0)])
      else
        match p.countQ roleAcceptQuery with
        | .ok count =>
            if count > 0 then
              .ok (CookieOutcome.clickedByRole count, [(roleAcceptQuery, 0)])
            else
              .ok (cookieMethod3 p cookieBannerSelectors)
        | .error _ =>
            .ok (cookieMethod3 p cookieBannerSelectors)

/-! ## `PlatformPage` (source `PlatformPage.js`) -/

/-- The comma-joined selector of `this.continueWithEmailButton`
(PlatformPage constructor, lines 17–24). -/
def continueWithEmailQuery : Query :=
  .css "a:has-text(\"Continue with Email\"),button:has-text(\"Email\"),a:has-text(\"Email\"),a:has-text(\"Sign in with Email\"),button:has-text(\"Sign in with Email\"),a[href*=\"email\"], button[class*=\"email\"]"

/-- The comma-joined selector of `this.continueWithGoogleButton`. -/
def continueWithGoogleQuery : Query :=
  .css "a:has-text(\"Continue with Google\"),button:has-text(\"Google\"),a:has-text(\"Google\"),a:has-text(\"Sign in with Google\"),button:has-text(\"Sign in with Google\"),a[href*=\"google\"], button[class*=\"google\"]"

/-- The comma-joined selector of `this.continueWithAppleButton`. -/
def continueWithAppleQuery : Query :=
  .css "a:has-text(\"Continue with Apple\"),button:has-text(\"Apple\"),a:has-text(\"Apple\"),a:has-text(\"Sign in with Apple\"),button:has-text(\"Sign in with Apple\"),a[href*=\"apple\"], button[class*=\"apple\"]"

/-- The comma-joined selector of `this.cookieConsentContainer` (lines 82–88). -/
def cookieConsentContainerQuery : Query :=
  .css "[role=\"region\"][aria-label=\"We value your privacy\"],[class*=\"cookie\"],[id*=\"cookie\"],[class*=\"consent\"],[id*=\"consent\"]"

/-- The fallback selectors of `clickContinueWithEmail` (lines 114–122). -/
def alternativeEmailSelectors : List String :=
  ["form input[type=\"email\"]",
   "a:has-text(/sign.?in/i)",
   "a:has-text(/log.?in/i)",
   "button:has-text(/sign.?in/i)",
   "button:has-text(/log.?in/i)",
   "a:has-text(/register/i)",
   "button:has-text(/register/i)"]

/-- `PlatformPage.clickContinueWithEmail` (lines 102–140): try the main
locator (bare `isVisible` with a `.catch(false)`; the click itself and the
following load wait are unguarded), then each fallback selector's `.first()`
in order; when nothing is visible, throw
`new Error('Could not find email login option')`.  The outer `catch` logs
and rethrows, so every failure propagates unchanged. -/
def PlatformPage.clickContinueWithEmail (p : Page) : Except JsError Unit :=
  if catchD (p.visLoc continueWithEmailQuery) false then
    match p.clickLoc continueWithEmailQuery with
    | .error e => .error e
    | .ok p2 => BasePage.waitForPageLoad p2
  else
    match alternativeEmailSelectors.find? (fun sel => catchD (p.visNth (.css sel) 0) false) with
    | some sel =>
        match p.clickNth (.css sel) 0 with
        | .error e => .error e
        | .ok p2 => BasePage.waitForPageLoad p2
    | none => .error (.generic "Could not find email login option")

/-- The alternative accept-button probe of `isCookieConsentVisible`
(line 204). -/
def acceptButtonAltQuery : Query :=
  .css "[data-cky-tag=\"accept-button\"], button:has-text(\"Accept\")"

/-- `PlatformPage.isCookieConsentVisible` (lines 186–214): count the
container matches (a count failure is caught into `false` by the outer
`try`), probe **at most the first 5** matches for a visible one, then fall
back to the accept-button locator; probe failures read as invisible. -/
def PlatformPage.isCookieConsentVisible (p : Page) : Except JsError Bool :=
  match p.countQ cookieConsentContainerQuery with
  | .error _ => .ok false
  | .ok count =>
      if anyVisibleBelow p cookieConsentContainerQuery (min count 5) then .ok true
      else if catchD (p.visNth acceptButtonAltQuery 0) false then .ok true
      else .ok false

/-- `PlatformPage.handleCookieConsent` (lines 219–227): run
`BasePage.acceptCookies` and swallow any error it propagates. -/
def PlatformPage.handleCookieConsent (p : Page) :
    Except JsError (CookieOutcome × List (Query × Nat)) :=
  match BasePage.acceptCookies p with
  | .ok r => .ok r
  | .error _ => .ok (CookieOutcome.errorCaught, [])

/-- The `otherOptions` registry of `getVisibleLoginOptions`
(lines 250–256), in source order: `(selector, display name)`. -/
def otherLoginOptions : List (String × String) :=
  [("a:has-text(/facebook/i), button:has-text(/facebook/i)", "Facebook"),
   ("a:has-text(/twitter/i), button:has-text(/twitter/i)", "Twitter"),
   ("a:has-text(/github/i), button:has-text(/github/i)", "GitHub"),
   ("a:has-text(/microsoft/i), button:has-text(/microsoft/i)", "Microsoft"),
   ("form input[type=\"email\"]", "Email Form")]

/-- The fixed standard registry of `getVisibleLoginOptions` (lines 237–247):
`(name, locator)` in source order. -/
def standardLoginOptions : List (String × Query) :=
  [("Email", continueWithEmailQuery),
   ("Google", continueWithGoogleQuery),
   ("Apple", continueWithAppleQuery)]

/-- `PlatformPage.getVisibleLoginOptions` (lines 233–266): push each
standard option whose bare locator reports visible (probe failures read as
invisible), then each `otherOptions` entry whose `.first()` reports visible.
Every probe is guarded, so the enumeration never throws; the returned pairs
are `(display name, locator)`. -/
def PlatformPage.getVisibleLoginOptions (p : Page) :
    Except JsError (List (String × Query)) :=
  .ok ((standardLoginOptions.filter (fun nq => catchD (p.visLoc nq.2) false)) ++
       ((otherLoginOptions.filter (fun sn => catchD (p.visNth (.css sn.1) 0) false)).map
         (fun sn => (sn.2, Query.css sn.1))))

/-! ## `HomePage` (source `HomePage.js`) -/

/-- `this.enterPlatformButton` (HomePage constructor, line 26): a `.first()`
over the comma-joined Enter selectors. -/
def enterPlatformQuery : Query :=
  .css "a:has-text(\"Enter Platform\"), button:has-text(\"Enter Platform\"), a:has-text(\"Enter\"), button:has-text(\"Enter\")"

/-- The candidate list built inside `clickEnterPlatform` and
`isEnterPlatformButtonVisible` (lines 44–48 and 129–133), in order. -/
def enterPlatformCandidates : List Query :=
  [.roleLink "enter", .roleButton "enter",
   .css "a:has-text(\"Enter\"), button:has-text(\"Enter\")"]

/-- The `HomePage` object state the constructor produces: the claims about
`clickEnterPlatform` hinge on `this.enterPlatformButton`, which the
constructor always initialises (so the `!this.enterPlatformButton` fallback
branch is unreachable on a constructed object). -/
structure HomePageState where
  enterPlatformButton : Option Query

/-- The `HomePage` constructor's assignment (line 26). -/
def HomePage.new : HomePageState := ⟨some enterPlatformQuery⟩

/-- `HomePage.clickEnterPlatform` (lines 41–62): when the constructor-set
locator is missing (never, for a constructed object) scan the candidate
list and throw `new Error('Enter Platform button not found on page')` on
exhaustion; otherwise click the stored `.first()` locator unguarded — an
absent button surfaces as the driver's click failure, propagated
unchanged. -/
def HomePage.clickEnterPlatform (hp : HomePageState) (p : Page) : Except JsError Unit :=
  match hp.enterPlatformButton with
  | none =>
      match enterPlatformCandidates.find? (fun q => catchD (p.visNth q 0) false) with
      | some q =>
          match p.clickNth q 0 with
          | .error e => .error e
          | .ok p2 => BasePage.waitForPageLoad p2
      | none => .error (.generic "Enter Platform button not found on page")
  | some q =>
      match p.clickNth q 0 with
      | .error e => .error e
      | .ok p2 => BasePage.waitForPageLoad p2

/-- `HomePage.isEnterPlatformButtonVisible` (lines 128–142): scan the three
candidate locators' `.first()`; probe failures read as invisible; report
`false` on exhaustion and never throw. -/
def HomePage.isEnterPlatformButtonVisible (p : Page) : Except JsError Bool :=
  .ok (enterPlatformCandidates.any (fun q => catchD (p.visNth q 0) false))

/-- `a` ends with `b`, on character lists. -/
def charsEnd (a b : List Char) : Bool := charsStart b.reverse a.reverse

/-- The JS test `url.match(/.*angelcard\.us\/?$/) || url.match(/.*angelcard\.us\/$/)`
(lines 83): with `.*` free to match empty at the suffix position, the
disjunction holds exactly when the URL ends in `angelcard.us` or
`angelcard.us/`. -/
def matchesHomeUrl (url : String) : Bool :=
  charsEnd url.data "angelcard.us".data || charsEnd url.data "angelcard.us/".data

/-- `HomePage.clickAngelCardLogo` (lines 69–90): the logo locator is
`page.locator('img').first()`; when its guarded probe reads invisible the
method throws a dedicated error; otherwise the unguarded click and load wait
run (their failures propagate) and the method returns whether the landed
URL matches the home pattern — non-navigation is a `false` return, not an
error. -/
def HomePage.clickAngelCardLogo (p : Page) : Except JsError Bool :=
  if !(catchD (p.visNth (.css "img") 0) false) then
    .error (.generic "AngelCard logo is not visible on the page")
  else
    match p.clickNth (.css "img") 0 with
    | .error e => .error e
    | .ok p2 =>
        match BasePage.waitForPageLoad p2 with
        | .error e => .error e
        | .ok _ => .ok (matchesHomeUrl p2.url)

/-! ## Concrete page states

Closed `Page` values used to evaluate the operations at specific inputs:
each fixes a full assignment of probe results, so the operations above can
be run on it by `decide`. -/

/-- A quiescent page: empty text, no matching elements, clicks time out. -/
def pInert : Page :=
  .mk (.ok "") (.ok ()) (fun _ => .ok 0) (fun _ _ => .ok false)
      (fun _ => .ok false) (fun _ _ => .error (.timeout "click: Timeout 15000ms exceeded"))
      (fun _ => .error (.timeout "click: Timeout 15000ms exceeded"))
      "https://www.angelcard.us/" (.ok ())

/-- A page whose body text has no cookie/consent/privacy keyword and on
which no locator resolves to a visible element. -/
def pNoBanner : Page :=
  .mk (.ok "welcome to the platform") (.ok ()) (fun _ => .ok 0)
      (fun _ _ => .ok false) (fun _ => .ok false)
      (fun _ _ => .error (.timeout "click: Timeout 15000ms exceeded"))
      (fun _ => .error (.timeout "click: Timeout 15000ms exceeded"))
      "https://www.angelcard.us/" (.ok ())

/-- A page showing a cookie banner with the data-attribute accept button
visible (every visibility probe reports `true`). -/
def pBanner : Page :=
  .mk (.ok "We use cookies") (.ok ()) (fun _ => .ok 0)
      (fun _ _ => .ok true) (fun _ => .ok true)
      (fun _ _ => .ok pInert) (fun _ => .ok pInert)
      "https://www.angelcard.us/" (.ok ())

/-- A page on which the body-text probe (`page.evaluate`) itself fails. -/
def pEvalFails : Page :=
  .mk (.error (.generic "Execution context was destroyed")) (.ok ())
      (fun _ => .ok 0) (fun _ _ => .ok false) (fun _ => .ok false)
      (fun _ _ => .error (.timeout "click: Timeout 15000ms exceeded"))
      (fun _ => .error (.timeout "click: Timeout 15000ms exceeded"))
      "https://www.angelcard.us/" (.ok ())

/-- A page where every locator matches 6 elements and only the element at
index 5 — beyond the first five — is visible. -/
def pSixth : Page :=
  .mk (.ok "welcome") (.ok ()) (fun _ => .ok 6)
      (fun _ i => .ok (i == 5)) (fun _ => .ok false)
      (fun _ _ => .error (.timeout "click: Timeout 15000ms exceeded"))
      (fun _ => .error (.timeout "click: Timeout 15000ms exceeded"))
      "https://www.angelcard.us/" (.ok ())

/-- A page with a visible logo whose click fails (detached element). -/
def pLogoClickFails : Page :=
  .mk (.ok "welcome") (.ok ()) (fun _ => .ok 1)
      (fun _ _ => .ok true) (fun _ => .ok true)
      (fun _ _ => .error (.timeout "locator.click: Timeout 15000ms exceeded"))
      (fun _ => .error (.timeout "locator.click: Timeout 15000ms exceeded"))
      "https://www.angelcard.us/" (.ok ())

/-- A page with a visible logo whose click lands on `pInert` (the home
page URL). -/
def pLogoGood : Page :=
  .mk (.ok "welcome") (.ok ()) (fun _ => .ok 1)
      (fun _ _ => .ok true) (fun _ => .ok true)
      (fun _ _ => .ok pInert) (fun _ => .ok pInert)
      "https://platform.angelcard.us/" (.ok ())

/-- A platform page on which exactly the dedicated email login control is
visible: the bare `continueWithEmailButton` locator reports visible,
everything else (including the bare-form probe) reports invisible. -/
def pEmailOnly : Page :=
  .mk (.ok "welcome") (.ok ()) (fun _ => .ok 1)
      (fun _ _ => .ok false) (fun q => .ok (q == continueWithEmailQuery))
      (fun _ _ => .ok pInert) (fun _ => .ok pInert)
      "https://platform.angelcard.us/" (.ok ())

/-- A platform page on which only a bare email form input is present: every
bare-locator probe reports invisible and only the `form input[type="email"]`
`.first()` probe reports visible. -/
def pEmailFormOnly : Page :=
  .mk (.ok "welcome") (.ok ()) (fun _ => .ok 1)
      (fun q _ => .ok (q == Query.css "form input[type=\"email\"]"))
      (fun _ => .ok false)
      (fun _ _ => .ok pInert) (fun _ => .ok pInert)
      "https://platform.angelcard.us/" (.ok ())

/-- Discriminator for the spec's typed condition: does a result carry an
`affordanceNotFound` error? -/
def isAffordanceNotFound : Except JsError Unit → Bool
  | .error (.affordanceNotFound _) => true
  | _ => false

/-! ## Support for the HMAC collision argument -/

/-- The digest `verifySignature` compares against, for the default secret. -/
def digestOfBody (body : Json) : List Nat :=
  hmacSha256 (strUtf8 "default_secret") (strUtf8 body.stringify)

/-- A family of `2 ^ 257` JSON string bodies with pairwise distinct
serializations: one body per boolean assignment on 257 positions. -/
def collisionFamily (v : Fin 257 → Bool) : Json :=
  Json.str (String.mk ((List.finRange 257).map (fun i => if v i then 'b' else 'a')))

/-- The registry-order names `getVisibleLoginOptions` can emit, in the fixed
order the source checks them. -/
def loginRegistryNames : List String :=
  ["Email", "Google", "Apple", "Facebook", "Twitter", "GitHub", "Microsoft",
   "Email Form"]

/-- The names of an enumeration result. -/
def namesOf : Except JsError (List (String × Query)) → List String
  | .ok l => l.map (fun nq => nq.1)
  | .error _ => []

/-- The documented test-results payload
`{testResults:{summary:"5 passed"}, buildId:"42", runId:"7"}`. -/
def goodBody : Json :=
  Json.obj [("testResults", Json.obj [("summary", Json.str "5 passed")]),
            ("buildId", Json.str "42"), ("runId", Json.str "7")]

/-- A correctly signed request carrying `goodBody`. -/
def reqGood : WebhookRequest :=
  ⟨some (expectedSignature "default_secret" goodBody), goodBody⟩

/-- The same body with the signature header absent. -/
def reqNoHeader : WebhookRequest := ⟨none, goodBody⟩

/-- A correctly signed request whose body is the empty object — it passes
the signature gate but has no `testResults` field. -/
def reqEmptyObj : WebhookRequest :=
  ⟨some (expectedSignature "default_secret" (Json.obj [])), Json.obj []⟩

/-! ## Shared lemmas -/

/-- Every byte `wordBytes` emits is below 256. -/
theorem mem_wordBytes_lt {b w : Nat} (h : b ∈ wordBytes w) : b < 256 := by
  simp only [wordBytes, byteOf, List.mem_cons, List.not_mem_nil, or_false] at h
  rcases h with rfl | rfl | rfl | rfl <;> exact Nat.mod_lt _ (by norm_num)

/-- A SHA-256 digest is 32 bytes long. -/
theorem sha256_length (m : List Nat) : (sha256 m).length = 32 := by
  simp [sha256, digestBytes, wordBytes]

/-- Every byte of a SHA-256 digest is below 256. -/
theorem mem_sha256_lt {b : Nat} {m : List Nat} (h : b ∈ sha256 m) : b < 256 := by
  simp only [sha256, digestBytes, List.mem_append] at h
  rcases h with ((((((h | h) | h) | h) | h) | h) | h) | h <;>
    exact mem_wordBytes_lt h

/-- An HMAC-SHA256 digest is 32 bytes long. -/
theorem hmacSha256_length (k m : List Nat) : (hmacSha256 k m).length = 32 := by
  simp [hmacSha256, sha256_length]

/-- Every byte of an HMAC-SHA256 digest is below 256. -/
theorem mem_hmacSha256_lt {b : Nat} {k m : List Nat} (h : b ∈ hmacSha256 k m) :
    b < 256 := by
  simp only [hmacSha256] at h
  exact mem_sha256_lt h

/-- `getD` on a byte-bounded list stays below 256. -/
theorem getD_lt_of_bounded {bs : List Nat} (h : ∀ b ∈ bs, b < 256) (i : Nat) :
    bs.getD i 0 < 256 := by
  by_cases hi : i < bs.length
  · rw [List.getD_eq_getElem _ _ hi]
    exact h _ (List.getElem_mem hi)
  · rw [List.getD_eq_default _ _ (Nat.le_of_not_lt hi)]
    norm_num

/-- Two 32-byte lists agreeing at every `getD` index below 32 are equal. -/
theorem list_eq_of_getD32 {l1 l2 : List Nat} (h1 : l1.length = 32)
    (h2 : l2.length = 32) (h : ∀ i : Fin 32, l1.getD i.val 0 = l2.getD i.val 0) :
    l1 = l2 := by
  apply List.ext_getElem (h1.trans h2.symm)
  intro n hn1 hn2
  have hx := h ⟨n, by omega⟩
  rw [List.getD_eq_getElem _ _ hn1, List.getD_eq_getElem _ _ hn2] at hx
  exact hx

/-- `JSON.stringify` leaves `'a'` unescaped. -/
theorem escapeChar_a : escapeChar 'a' = ['a'] := by decide

/-- `JSON.stringify` leaves `'b'` unescaped. -/
theorem escapeChar_b : escapeChar 'b' = ['b'] := by decide

/-- Escaping a string of escape-free characters is the identity. -/
theorem flatten_map_escape (l : List Char) (h : ∀ c ∈ l, escapeChar c = [c]) :
    (l.map escapeChar).flatten = l := by
  induction l with
  | nil => rfl
  | cons c cs ih =>
      rw [List.map_cons, List.flatten_cons, h c (by simp)]
      rw [ih (fun x hx => h x (by simp [hx]))]
      rfl

/-- The serialization of a `collisionFamily` body: the raw quoted string,
since its characters need no escaping. -/
theorem collisionFamily_stringify (v : Fin 257 → Bool) :
    (collisionFamily v).stringify =
    "\"" ++ String.mk ((List.finRange 257).map (fun i => if v i then 'b' else 'a')) ++ "\"" := by
  have hall : ∀ c ∈ (List.finRange 257).map (fun i => if v i then 'b' else 'a'),
      escapeChar c = [c] := by
    intro c hc
    simp only [List.mem_map] at hc
    obtain ⟨i, _, rfl⟩ := hc
    by_cases h : v i
    · simp [h, escapeChar_b]
    · simp [h, escapeChar_a]
  simp only [collisionFamily, Json.stringify, stringifyString]
  rw [flatten_map_escape _ hall]

set_option maxRecDepth 4000 in
/-- Distinct boolean assignments give bodies with distinct serializations. -/
theorem collisionFamily_stringify_ne {v w : Fin 257 → Bool} (hne : v ≠ w) :
    (collisionFamily v).stringify ≠ (collisionFamily w).stringify := by
  intro heq
  rw [collisionFamily_stringify, collisionFamily_stringify] at heq
  apply hne
  have hdata := congrArg String.data heq
  simp only [String.data_append] at hdata
  have hcons := List.tail_eq_of_cons_eq hdata
  have hmap := List.append_cancel_right hcons
  funext i
  have hpt := (List.map_inj_left.mp hmap) i (List.mem_finRange i)
  by_cases hv : v i <;> by_cases hw : w i <;> simp [hv, hw] at hpt ⊢

/-- The gate's expected signature string is never empty. -/
theorem expectedSignature_ne_empty (secret : String) (payload : Json) :
    expectedSignature secret payload ≠ "" := by
  intro h
  have hdata := congrArg String.data h
  simp only [expectedSignature, String.data_append] at hdata
  exact absurd hdata (by simp)

/-! ## Claim C1 -/

/-- **C1, claim as stated is false** (its universal-rejection part): there
exist two bodies with different serializations such that `verifySignature`
under the default secret accepts the first body's valid signature for the
second body.  By pigeonhole: the `2 ^ 257` bodies of `collisionFamily` have
pairwise distinct serializations but only `2 ^ 256` possible 32-byte HMAC
digests, so two of them share a digest and hence a signature. -/
theorem claim_C1_counterexample : ∃ b1 b2 : Json,
    Json.stringify b1 ≠ Json.stringify b2 ∧
    verifySignature "default_secret" (expectedSignature "default_secret" b1) b2 = true := by
  have hcard : Fintype.card (Fin 32 → Fin 256) < Fintype.card (Fin 257 → Bool) := by
    rw [Fintype.card_fun, Fintype.card_fun]
    simp only [Fintype.card_fin, Fintype.card_bool]
    norm_num
  have hbound : ∀ (v : Fin 257 → Bool) (i : Nat),
      (digestOfBody (collisionFamily v)).getD i 0 < 256 := by
    intro v i
    exact getD_lt_of_bounded (fun b hb => mem_hmacSha256_lt hb) i
  obtain ⟨v, w, hvw, hF⟩ := Fintype.exists_ne_map_eq_of_card_lt
    (fun (v : Fin 257 → Bool) (i : Fin 32) =>
      (⟨(digestOfBody (collisionFamily v)).getD i.val 0, hbound v i.val⟩ : Fin 256)) hcard
  have hdig : digestOfBody (collisionFamily v) = digestOfBody (collisionFamily w) := by
    apply list_eq_of_getD32 (hmacSha256_length _ _) (hmacSha256_length _ _)
    intro i
    exact congrArg Fin.val (congrFun hF i)
  refine ⟨collisionFamily v, collisionFamily w, collisionFamily_stringify_ne hvw, ?_⟩
  have hsw : hmacSha256 (strUtf8 "default_secret") (strUtf8 (collisionFamily w).stringify)
      = hmacSha256 (strUtf8 "default_secret") (strUtf8 (collisionFamily v).stringify) := by
    have h2 := hdig
    simp only [digestOfBody] at h2
    exact h2.symm
  unfold verifySignature expectedSignature
  rw [hsw]
  exact beq_self_eq_true _

/-- **C1 (amended)**: `verifySignature` accepts exactly the header equal to
`"sha256=" ++ hex(HMAC-SHA256(secret, JSON.stringify(body)))`, and any other
header string is rejected; presenting body `b2` against the valid signature
for `payload` is accepted exactly when the two hex-encoded digests coincide
— so a body with a different serialization is rejected unless its HMAC
digest collides with the original's (such collisions exist:
`claim_C1_counterexample`). -/
theorem claim_C1_amended (secret : String) (payload b2 : Json) (sig : String) :
    (verifySignature secret sig payload = true ↔ sig = expectedSignature secret payload) ∧
    (verifySignature secret (expectedSignature secret payload) b2 = true ↔
      hexDigest (hmacSha256 (strUtf8 secret) (strUtf8 payload.stringify)) =
      hexDigest (hmacSha256 (strUtf8 secret) (strUtf8 b2.stringify))) := by
  constructor
  · unfold verifySignature expectedSignature
    exact beq_iff_eq
  · unfold verifySignature expectedSignature
    rw [beq_iff_eq]
    constructor
    · intro h
      have hdata := congrArg String.data h
      simp only [String.data_append] at hdata
      exact String.ext (List.append_cancel_left hdata)
    · intro h
      exact congrArg (fun x => "sha256=" ++ x) h

/-- An empty header string never matches the expected signature. -/
theorem verifySignature_empty (secret : String) (body : Json) :
    verifySignature secret "" body = false := by
  by_contra h
  have hbeq : verifySignature secret "" body = true := by
    cases hx : verifySignature secret "" body
    · exact absurd hx h
    · rfl
  have heq : ("" : String) = "sha256=" ++ hexDigest (hmacSha256 (strUtf8 secret) (strUtf8 body.stringify)) :=
    beq_iff_eq.mp hbeq
  exact expectedSignature_ne_empty secret body heq.symm

/-! ## Claim C2 -/

/-- **C2, claim as stated is false**: a request whose body is the empty
object, signed correctly, passes the signature gate, yet the test-results
handler does not answer `200 {status:"success"}` — destructuring yields
`testResults === undefined` and the `testResults.summary` read throws, so
Express reports a server error. -/
theorem claim_C2_counterexample :
    signatureAccepted "default_secret" reqEmptyObj = true ∧
    testResultsHandler "default_secret" reqEmptyObj =
      .error "TypeError: Cannot read properties of undefined (reading 'summary')" := by
  have hacc : signatureAccepted "default_secret" reqEmptyObj = true := by
    simp [signatureAccepted, reqEmptyObj, verifySignature, expectedSignature]
  refine ⟨hacc, ?_⟩
  have hne : ¬ expectedSignature "default_secret" (Json.obj []) = "" :=
    expectedSignature_ne_empty _ _
  simp only [signatureAccepted, reqEmptyObj] at hacc
  simp [testResultsHandler, reqEmptyObj, hne, hacc, jsonLookup]

/-- **C2 (amended)**: a missing or non-verifying `X-Webhook-Signature`
yields `401 {error:"Invalid signature"}` from both POST endpoints without
executing the handler body; a verifying request yields
`200 {status:"success"}` from `/webhook/ci-trigger` always, and from
`/webhook/test-results` exactly when the body carries a non-null
`testResults` field — when that field is absent the handler throws instead
(`claim_C2_counterexample`).  `GET /health` answers `200 {status:"healthy"}`
unconditionally. -/
theorem claim_C2_amended (secret : String) (req : WebhookRequest) :
    (signatureAccepted secret req = false →
       testResultsHandler secret req = .ok (invalidSignatureResponse, false) ∧
       ciTriggerHandler secret req = .ok (invalidSignatureResponse, false)) ∧
    (signatureAccepted secret req = true →
       ciTriggerHandler secret req = .ok (successResponse, true) ∧
       (∀ j, jsonLookup req.body "testResults" = some j → j ≠ Json.null →
          testResultsHandler secret req = .ok (successResponse, true)) ∧
       (jsonLookup req.body "testResults" = none →
          testResultsHandler secret req =
            .error "TypeError: Cannot read properties of undefined (reading 'summary')")) ∧
    healthHandler req = healthyResponse := by
  obtain ⟨header, body⟩ := req
  refine ⟨?_, ?_, rfl⟩
  · intro hacc
    cases header with
    | none => exact ⟨rfl, rfl⟩
    | some sig =>
      simp only [signatureAccepted] at hacc
      by_cases hsig : sig = ""
      · subst hsig
        simp [testResultsHandler, ciTriggerHandler]
      · constructor
        · simp [testResultsHandler, hsig, hacc]
        · simp [ciTriggerHandler, hsig, hacc]
  · intro hacc
    cases header with
    | none => simp [signatureAccepted] at hacc
    | some sig =>
      simp only [signatureAccepted] at hacc
      have hsig : ¬ sig = "" := by
        intro h
        subst h
        rw [verifySignature_empty] at hacc
        exact Bool.noConfusion hacc
      refine ⟨by simp [ciTriggerHandler, hsig, hacc], ?_, ?_⟩
      · intro j hlookup hj
        cases j with
        | null => exact absurd rfl hj
        | bool b => simp [testResultsHandler, hsig, hacc, hlookup]
        | num n => simp [testResultsHandler, hsig, hacc, hlookup]
        | str s => simp [testResultsHandler, hsig, hacc, hlookup]
        | arr xs => simp [testResultsHandler, hsig, hacc, hlookup]
        | obj fs => simp [testResultsHandler, hsig, hacc, hlookup]
      · intro hlookup
        simp [testResultsHandler, hsig, hacc, hlookup]

/-- Witness for C2 (amended): the documented payload, correctly signed, gets
`200 {status:"success"}` from both POST endpoints; with the header absent it
gets `401 {error:"Invalid signature"}` and the handler body does not run;
`GET /health` answers `200 {status:"healthy"}`. -/
theorem claim_C2_witness :
    testResultsHandler "default_secret" reqGood = .ok (successResponse, true) ∧
    ciTriggerHandler "default_secret" reqGood = .ok (successResponse, true) ∧
    testResultsHandler "default_secret" reqNoHeader = .ok (invalidSignatureResponse, false) ∧
    ciTriggerHandler "default_secret" reqNoHeader = .ok (invalidSignatureResponse, false) ∧
    healthHandler reqGood = healthyResponse := by
  have hacc : signatureAccepted "default_secret" reqGood = true := by
    simp [signatureAccepted, reqGood, verifySignature, expectedSignature]
  have hnone : signatureAccepted "default_secret" reqNoHeader = false := by
    simp [signatureAccepted, reqNoHeader]
  refine ⟨?_, ?_, ?_, ?_, ?_⟩
  · exact ((claim_C2_amended "default_secret" reqGood).2.1 hacc).2.1
      (Json.obj [("summary", Json.str "5 passed")]) rfl (fun h => Json.noConfusion h)
  · exact ((claim_C2_amended "default_secret" reqGood).2.1 hacc).1
  · exact ((claim_C2_amended "default_secret" reqNoHeader).1 hnone).1
  · exact ((claim_C2_amended "default_secret" reqNoHeader).1 hnone).2
  · exact (claim_C2_amended "default_secret" reqGood).2.2

/-! ## Shared lemmas about `acceptCookies` -/

/-- With the probes succeeding and no keyword in the page text,
`acceptCookies` ends at the probe: no strategy, no click. -/
theorem acceptCookies_noBanner (p : Page) (text : String)
    (hshot : p.screenshot = .ok ()) (htext : p.bodyInnerText = .ok text)
    (hkw : hasCookieKeywords text = false) :
    BasePage.acceptCookies p = .ok (CookieOutcome.noBanner, []) := by
  simp [BasePage.acceptCookies, hshot, htext, hkw]

/-- With keywords present and the data-attribute button visible, Method 1
fires and the handler stops. -/
theorem acceptCookies_dataAttr (p : Page) (text : String)
    (hshot : p.screenshot = .ok ()) (htext : p.bodyInnerText = .ok text)
    (hkw : hasCookieKeywords text = true)
    (hvis : catchD (p.visNth dataAttrQuery 0) false = true) :
    BasePage.acceptCookies p = .ok (CookieOutcome.clickedDataAttr, [(dataAttrQuery, 0)]) := by
  simp [BasePage.acceptCookies, hshot, htext, hkw, hvis]

/-- With Method 1 not firing and the role query counting `n > 0` matches,
Method 2 clicks the first match and the handler stops. -/
theorem acceptCookies_byRole (p : Page) (text : String) (n : Nat)
    (hshot : p.screenshot = .ok ()) (htext : p.bodyInnerText = .ok text)
    (hkw : hasCookieKeywords text = true)
    (hvis : catchD (p.visNth dataAttrQuery 0) false = false)
    (hcount : p.countQ roleAcceptQuery = .ok n) (hn : 0 < n) :
    BasePage.acceptCookies p = .ok (CookieOutcome.clickedByRole n, [(roleAcceptQuery, 0)]) := by
  simp [BasePage.acceptCookies, hshot, htext, hkw, hvis, hcount, hn]

/-- With Methods 1 and 2 not firing (zero role matches), the handler runs
Method 3 over the banner selector list. -/
theorem acceptCookies_method3_zero (p : Page) (text : String)
    (hshot : p.screenshot = .ok ()) (htext : p.bodyInnerText = .ok text)
    (hkw : hasCookieKeywords text = true)
    (hvis : catchD (p.visNth dataAttrQuery 0) false = false)
    (hcount : p.countQ roleAcceptQuery = .ok 0) :
    BasePage.acceptCookies p = .ok (cookieMethod3 p cookieBannerSelectors) := by
  simp [BasePage.acceptCookies, hshot, htext, hkw, hvis, hcount]

/-- A failing role count is caught by Method 2's `try` and also falls
through to Method 3. -/
theorem acceptCookies_method3_err (p : Page) (text : String) (e : JsError)
    (hshot : p.screenshot = .ok ()) (htext : p.bodyInnerText = .ok text)
    (hkw : hasCookieKeywords text = true)
    (hvis : catchD (p.visNth dataAttrQuery 0) false = false)
    (hcount : p.countQ roleAcceptQuery = .error e) :
    BasePage.acceptCookies p = .ok (cookieMethod3 p cookieBannerSelectors) := by
  simp [BasePage.acceptCookies, hshot, htext, hkw, hvis, hcount]

/-- Method 3 picks the first banner selector whose container is visible. -/
theorem cookieMethod3_eq_find (p : Page) (sels : List String) :
    cookieMethod3 p sels =
      match sels.find? (fun sel => catchD (p.visNth (.css sel) 0) false) with
      | some sel => (CookieOutcome.clickedBanner sel, [(Query.within sel bannerAcceptInner, 0)])
      | none => (CookieOutcome.exhausted, []) := by
  induction sels with
  | nil => rfl
  | cons sel rest ih =>
      by_cases h : catchD (p.visNth (.css sel) 0) false = true
      · simp [cookieMethod3, List.find?_cons, h]
      · simp only [Bool.not_eq_true] at h
        simp [cookieMethod3, List.find?_cons, h, ih]

/-! ## Claim C3 -/

/-- **C3 (confirmed)**: with the screenshot and text probe succeeding, the
handler is the linear cascade the claim describes — if the page text has
none of the keywords it stops with no strategy attempted and no click;
otherwise Strategy A (data-attribute button, when its probe reads visible)
fires first and stops; else Strategy B (role query, when its count is
positive) clicks the first match and stops; else Strategy C walks the fixed
banner-selector list and clicks the accept control inside the first visible
container, stopping there; exhaustion falls out with no click. -/
theorem claim_C3 (p : Page) (text : String)
    (hshot : p.screenshot = .ok ()) (htext : p.bodyInnerText = .ok text) :
    (hasCookieKeywords text = false →
       BasePage.acceptCookies p = .ok (CookieOutcome.noBanner, [])) ∧
    (hasCookieKeywords text = true →
       (catchD (p.visNth dataAttrQuery 0) false = true →
          BasePage.acceptCookies p = .ok (CookieOutcome.clickedDataAttr, [(dataAttrQuery, 0)])) ∧
       (catchD (p.visNth dataAttrQuery 0) false = false →
          (∀ n, p.countQ roleAcceptQuery = .ok n → 0 < n →
             BasePage.acceptCookies p = .ok (CookieOutcome.clickedByRole n, [(roleAcceptQuery, 0)])) ∧
          ((p.countQ roleAcceptQuery = .ok 0 ∨ ∃ e, p.countQ roleAcceptQuery = .error e) →
             BasePage.acceptCookies p =
               .ok (match cookieBannerSelectors.find?
                      (fun sel => catchD (p.visNth (.css sel) 0) false) with
                    | some sel => (CookieOutcome.clickedBanner sel,
                                   [(Query.within sel bannerAcceptInner, 0)])
                    | none => (CookieOutcome.exhausted, []))))) := by
  refine ⟨fun hkw => acceptCookies_noBanner p text hshot htext hkw, fun hkw => ⟨?_, ?_⟩⟩
  · exact fun hvis => acceptCookies_dataAttr p text hshot htext hkw hvis
  · intro hvis
    refine ⟨fun n hc hn => acceptCookies_byRole p text n hshot htext hkw hvis hc hn, ?_⟩
    intro hc
    rw [← cookieMethod3_eq_find]
    rcases hc with hc | ⟨e, hc⟩
    · exact acceptCookies_method3_zero p text hshot htext hkw hvis hc
    · exact acceptCookies_method3_err p text e hshot htext hkw hvis hc

/-- Witness for C3: on `pBanner` (keyword present, accept button visible)
Strategy A fires; on `pNoBanner` (no keyword) the probe stops the handler
with no click. -/
theorem claim_C3_witness :
    BasePage.acceptCookies pBanner = .ok (CookieOutcome.clickedDataAttr, [(dataAttrQuery, 0)]) ∧
    BasePage.acceptCookies pNoBanner = .ok (CookieOutcome.noBanner, []) := by
  constructor
  · exact ((claim_C3 pBanner "We use cookies" rfl rfl).2 (by decide)).1 rfl
  · exact (claim_C3 pNoBanner "welcome to the platform" rfl rfl).1 (by decide)

/-! ## Claim C4 -/

/-- **C4 (confirmed)**: `handleCookieConsent` returns normally on every
page state — whatever `acceptCookies` does, including propagating a probe
failure, is caught — and on a page with no banner (probes succeed, no
keyword in the text) it is a no-op: outcome `noBanner` with no click
attempted, so the page is unchanged and a second call on it returns the
same no-op result. -/
theorem claim_C4 (p : Page) (text : String) :
    (∃ r, PlatformPage.handleCookieConsent p = .ok r) ∧
    (p.screenshot = .ok () → p.bodyInnerText = .ok text → hasCookieKeywords text = false →
       PlatformPage.handleCookieConsent p = .ok (CookieOutcome.noBanner, [])) := by
  constructor
  · cases h : BasePage.acceptCookies p with
    | ok r => exact ⟨r, by simp [PlatformPage.handleCookieConsent, h]⟩
    | error e => exact ⟨(CookieOutcome.errorCaught, []), by simp [PlatformPage.handleCookieConsent, h]⟩
  · intro hshot htext hkw
    simp [PlatformPage.handleCookieConsent, acceptCookies_noBanner p text hshot htext hkw]

/-- Witness for C4: on the banner-free `pNoBanner` both (identical) calls
return the no-op result with no click; on `pEvalFails`, whose text probe
itself throws, the handler still returns normally. -/
theorem claim_C4_witness :
    PlatformPage.handleCookieConsent pNoBanner = .ok (CookieOutcome.noBanner, []) ∧
    PlatformPage.handleCookieConsent pEvalFails = .ok (CookieOutcome.errorCaught, []) := by
  constructor
  · exact (claim_C4 pNoBanner "welcome to the platform").2 rfl rfl (by decide)
  · rfl

/-! ## Claim C5 -/

/-- **C5, claim as stated is false**: on a page with no visible login
affordance, `clickContinueWithEmail` throws the generic
`Error('Could not find email login option')`, which carries no candidate
names and is not a typed `AffordanceNotFound` condition; and
`clickEnterPlatform` — whose constructor-set locator always exists, making
its own not-found branch unreachable — surfaces absence as the driver's
propagated click timeout, again not a typed condition. -/
theorem claim_C5_counterexample :
    PlatformPage.clickContinueWithEmail pNoBanner =
      .error (.generic "Could not find email login option") ∧
    isAffordanceNotFound (PlatformPage.clickContinueWithEmail pNoBanner) = false ∧
    HomePage.clickEnterPlatform HomePage.new pNoBanner =
      .error (.timeout "click: Timeout 15000ms exceeded") ∧
    isAffordanceNotFound (HomePage.clickEnterPlatform HomePage.new pNoBanner) = false :=
  ⟨rfl, rfl, rfl, rfl⟩

/-- **C5 (amended)**: when no candidate resolves to a visible element,
`clickContinueWithEmail` raises the generic fixed-message
`Error('Could not find email login option')` (not a typed condition carrying
the candidate names), and `clickEnterPlatform` clicks its always-present
constructor locator, so absence surfaces as the driver's click failure,
propagated unchanged. -/
theorem claim_C5_amended (p : Page) :
    (catchD (p.visLoc continueWithEmailQuery) false = false →
     (∀ sel ∈ alternativeEmailSelectors, catchD (p.visNth (.css sel) 0) false = false) →
     PlatformPage.clickContinueWithEmail p =
       .error (.generic "Could not find email login option")) ∧
    (∀ e, p.clickNth enterPlatformQuery 0 = .error e →
       HomePage.clickEnterPlatform HomePage.new p = .error e) := by
  constructor
  · intro h1 h2
    have hfind : alternativeEmailSelectors.find?
        (fun sel => catchD (p.visNth (.css sel) 0) false) = none :=
      List.find?_eq_none.mpr (fun sel hs => by simp [h2 sel hs])
    simp [PlatformPage.clickContinueWithEmail, h1, hfind]
  · intro e he
    simp [HomePage.clickEnterPlatform, HomePage.new, he]

/-- Witness for C5 (amended): evaluated on the page with nothing visible. -/
theorem claim_C5_witness :
    PlatformPage.clickContinueWithEmail pNoBanner =
      .error (.generic "Could not find email login option") ∧
    HomePage.clickEnterPlatform HomePage.new pNoBanner =
      .error (.timeout "click: Timeout 15000ms exceeded") := by
  constructor
  · exact (claim_C5_amended pNoBanner).1 rfl (fun sel _ => rfl)
  · exact (claim_C5_amended pNoBanner).2 _ rfl

/-! ## Claim C6 -/

/-- **C6 (confirmed)**: the resolution operations always return a value —
`BasePage.isVisible`, `isEnterPlatformButtonVisible` and
`getVisibleLoginOptions` never propagate an error — and when every probe
reads invisible (which includes every probe failing, since failures are
absorbed by the `catch` fallbacks) they return the not-found outcome:
`false`, respectively the empty list. -/
theorem claim_C6 (p : Page) (q : Query) :
    (∃ b, BasePage.isVisible p q = .ok b) ∧
    ((∀ i, catchD (p.visNth q i) false = false) →
     catchD (p.visLoc q) false = false →
     BasePage.isVisible p q = .ok false) ∧
    (∃ b, HomePage.isEnterPlatformButtonVisible p = .ok b) ∧
    ((∀ q2 ∈ enterPlatformCandidates, catchD (p.visNth q2 0) false = false) →
     HomePage.isEnterPlatformButtonVisible p = .ok false) ∧
    (∃ l, PlatformPage.getVisibleLoginOptions p = .ok l) ∧
    ((∀ nq ∈ standardLoginOptions, catchD (p.visLoc nq.2) false = false) →
     (∀ sn ∈ otherLoginOptions, catchD (p.visNth (.css sn.1) 0) false = false) →
     PlatformPage.getVisibleLoginOptions p = .ok []) := by
  refine ⟨?_, ?_, ⟨_, rfl⟩, ?_, ⟨_, rfl⟩, ?_⟩
  · unfold BasePage.isVisible
    by_cases h1 : catchD (p.countQ q) 0 > 1
    · simp [h1]
    · by_cases h2 : (catchD (p.countQ q) 0 == 1) = true <;> simp [h1, h2]
  · intro hn hl
    unfold BasePage.isVisible
    have hany : ∀ n, anyVisibleBelow p q n = false := fun n =>
      List.any_eq_false.mpr (fun i _ => by simp [hn i])
    by_cases h1 : catchD (p.countQ q) 0 > 1
    · simp [h1, hany]
    · by_cases h2 : (catchD (p.countQ q) 0 == 1) = true <;> simp [h1, h2, hl]
  · intro h
    unfold HomePage.isEnterPlatformButtonVisible
    rw [List.any_eq_false.mpr (fun q2 hq2 => by simp [h q2 hq2])]
  · intro h1 h2
    unfold PlatformPage.getVisibleLoginOptions
    have e1 : standardLoginOptions.filter (fun nq => catchD (p.visLoc nq.2) false) = [] :=
      List.filter_eq_nil_iff.mpr (fun nq hnq => by simp [h1 nq hnq])
    have e2 : otherLoginOptions.filter (fun sn => catchD (p.visNth (.css sn.1) 0) false) = [] :=
      List.filter_eq_nil_iff.mpr (fun sn hsn => by simp [h2 sn hsn])
    rw [e1, e2]
    rfl

/-- Witness for C6: on the page with nothing visible all three operations
return their not-found outcome without raising. -/
theorem claim_C6_witness :
    BasePage.isVisible pNoBanner (Query.css "img") = .ok false ∧
    HomePage.isEnterPlatformButtonVisible pNoBanner = .ok false ∧
    PlatformPage.getVisibleLoginOptions pNoBanner = .ok [] := by
  refine ⟨?_, ?_, ?_⟩
  · exact (claim_C6 pNoBanner (Query.css "img")).2.1 (fun i => rfl) rfl
  · exact (claim_C6 pNoBanner (Query.css "img")).2.2.2.1 (fun q2 _ => rfl)
  · exact (claim_C6 pNoBanner (Query.css "img")).2.2.2.2.2 (fun nq _ => rfl)
      (fun sn _ => rfl)

/-! ## Claim C7 -/

/-- **C7, claim as stated is false**: the five-element cap holds for
`isCookieConsentVisible` but not for `BasePage.isVisible`, which probes
every match.  On a page where a locator matches six elements of which only
the sixth (index 5) is visible, a probe bounded to the first five finds
nothing — yet `BasePage.isVisible` reports `true`, and on the same page
`isCookieConsentVisible` (which does cap at 5) reports `false`. -/
theorem claim_C7_counterexample :
    anyVisibleBelow pSixth (Query.css "div") 5 = false ∧
    BasePage.isVisible pSixth (Query.css "div") = .ok true ∧
    PlatformPage.isCookieConsentVisible pSixth = .ok false := by
  refine ⟨by decide, by decide, by decide⟩

/-- **C7 (amended)**: with a successful count of `n` matches,
`isCookieConsentVisible` accepts a visible element among the first
`min n 5` matches (falling back to the accept-button probe), while
`BasePage.isVisible` with `n > 1` scans all `n` matches with no cap; both
absorb probe failures and never raise an ambiguity error. -/
theorem claim_C7_amended (p : Page) (q : Query) (n : Nat) :
    (p.countQ cookieConsentContainerQuery = .ok n →
       PlatformPage.isCookieConsentVisible p =
         .ok (anyVisibleBelow p cookieConsentContainerQuery (min n 5) ||
              catchD (p.visNth acceptButtonAltQuery 0) false)) ∧
    (p.countQ q = .ok n → 1 < n →
       BasePage.isVisible p q = .ok (anyVisibleBelow p q n)) := by
  constructor
  · intro hc
    unfold PlatformPage.isCookieConsentVisible
    rw [hc]
    by_cases h1 : anyVisibleBelow p cookieConsentContainerQuery (min n 5) = true <;>
      by_cases h2 : catchD (p.visNth acceptButtonAltQuery 0) false = true <;>
      simp [h1, h2]
  · intro hc hn
    unfold BasePage.isVisible
    rw [hc]
    simp [catchD, hn]

/-- Witness for C7 (amended): evaluated on the six-match page. -/
theorem claim_C7_witness :
    PlatformPage.isCookieConsentVisible pSixth = .ok false ∧
    BasePage.isVisible pSixth (Query.css "div") = .ok true := by
  constructor
  · rw [(claim_C7_amended pSixth (Query.css "div") 6).1 rfl]
    decide
  · rw [(claim_C7_amended pSixth (Query.css "div") 6).2 rfl (by norm_num)]
    decide

/-! ## Claim C8 -/

/-- **C8 (confirmed)**: when the only visible login affordance is the
dedicated email control, the enumeration returns exactly one entry named
`"Email"`; when only a bare `form input[type="email"]` is present, exactly
one entry named `"Email Form"` — each at its fixed registry position. -/
theorem claim_C8 (p : Page) :
    (catchD (p.visLoc continueWithEmailQuery) false = true →
     catchD (p.visLoc continueWithGoogleQuery) false = false →
     catchD (p.visLoc continueWithAppleQuery) false = false →
     (∀ sn ∈ otherLoginOptions, catchD (p.visNth (.css sn.1) 0) false = false) →
     PlatformPage.getVisibleLoginOptions p = .ok [("Email", continueWithEmailQuery)]) ∧
    ((∀ nq ∈ standardLoginOptions, catchD (p.visLoc nq.2) false = false) →
     (∀ sn ∈ otherLoginOptions, sn.2 ≠ "Email Form" →
        catchD (p.visNth (.css sn.1) 0) false = false) →
     catchD (p.visNth (.css "form input[type=\"email\"]") 0) false = true →
     PlatformPage.getVisibleLoginOptions p =
       .ok [("Email Form", Query.css "form input[type=\"email\"]")]) := by
  constructor
  · intro h1 h2 h3 h4
    have e2 : otherLoginOptions.filter
        (fun sn => catchD (p.visNth (.css sn.1) 0) false) = [] :=
      List.filter_eq_nil_iff.mpr (fun sn hsn => by simp [h4 sn hsn])
    unfold PlatformPage.getVisibleLoginOptions
    rw [e2]
    simp [standardLoginOptions, List.filter_cons, h1, h2, h3]
  · intro h1 h2 h3
    have hstd : standardLoginOptions.filter
        (fun nq => catchD (p.visLoc nq.2) false) = [] :=
      List.filter_eq_nil_iff.mpr (fun nq hnq => by simp [h1 nq hnq])
    have hfb : catchD (p.visNth
        (.css "a:has-text(/facebook/i), button:has-text(/facebook/i)") 0) false = false :=
      h2 ("a:has-text(/facebook/i), button:has-text(/facebook/i)", "Facebook")
        (by simp [otherLoginOptions]) (by decide)
    have htw : catchD (p.visNth
        (.css "a:has-text(/twitter/i), button:has-text(/twitter/i)") 0) false = false :=
      h2 ("a:has-text(/twitter/i), button:has-text(/twitter/i)", "Twitter")
        (by simp [otherLoginOptions]) (by decide)
    have hgh : catchD (p.visNth
        (.css "a:has-text(/github/i), button:has-text(/github/i)") 0) false = false :=
      h2 ("a:has-text(/github/i), button:has-text(/github/i)", "GitHub")
        (by simp [otherLoginOptions]) (by decide)
    have hms : catchD (p.visNth
        (.css "a:has-text(/microsoft/i), button:has-text(/microsoft/i)") 0) false = false :=
      h2 ("a:has-text(/microsoft/i), button:has-text(/microsoft/i)", "Microsoft")
        (by simp [otherLoginOptions]) (by decide)
    unfold PlatformPage.getVisibleLoginOptions
    rw [hstd]
    simp [otherLoginOptions, List.filter_cons, hfb, htw, hgh, hms, h3]

set_option maxRecDepth 10000 in
/-- Witness for C8: evaluated on the email-button-only page and on the
bare-email-form page. -/
theorem claim_C8_witness :
    PlatformPage.getVisibleLoginOptions pEmailOnly =
      .ok [("Email", continueWithEmailQuery)] ∧
    PlatformPage.getVisibleLoginOptions pEmailFormOnly =
      .ok [("Email Form", Query.css "form input[type=\"email\"]")] := by
  constructor
  · exact (claim_C8 pEmailOnly).1 (by decide) (by decide) (by decide)
      (fun sn _ => rfl)
  · refine (claim_C8 pEmailFormOnly).2 (fun nq _ => rfl) ?_ (by decide)
    intro sn hsn hne
    simp only [otherLoginOptions, List.mem_cons, List.not_mem_nil, or_false] at hsn
    rcases hsn with rfl | rfl | rfl | rfl | rfl
    · decide
    · decide
    · decide
    · decide
    · exact absurd rfl hne

/-! ## Claim C9 -/

/-- **C9 (confirmed)**: the enumeration is a deterministic function of the
page state's probe results — two pages agreeing on the registry probes give
identical results (in particular two successive calls on an unchanged page
do) — and the returned names always form a sublist of the fixed registry
order `Email, Google, Apple, Facebook, Twitter, GitHub, Microsoft,
Email Form`. -/
theorem claim_C9 (p p2 : Page) :
    (∀ nq ∈ standardLoginOptions, p.visLoc nq.2 = p2.visLoc nq.2) →
    (∀ sn ∈ otherLoginOptions, p.visNth (.css sn.1) 0 = p2.visNth (.css sn.1) 0) →
    PlatformPage.getVisibleLoginOptions p = PlatformPage.getVisibleLoginOptions p2 ∧
    (namesOf (PlatformPage.getVisibleLoginOptions p)).Sublist loginRegistryNames := by
  intro h1 h2
  have hstd : standardLoginOptions.filter (fun nq => catchD (p.visLoc nq.2) false) =
      standardLoginOptions.filter (fun nq => catchD (p2.visLoc nq.2) false) :=
    List.filter_congr (fun nq hnq => by rw [h1 nq hnq])
  have hoth : otherLoginOptions.filter (fun sn => catchD (p.visNth (.css sn.1) 0) false) =
      otherLoginOptions.filter (fun sn => catchD (p2.visNth (.css sn.1) 0) false) :=
    List.filter_congr (fun sn hsn => by rw [h2 sn hsn])
  constructor
  · unfold PlatformPage.getVisibleLoginOptions
    rw [hstd, hoth]
  · have hreg : loginRegistryNames =
        standardLoginOptions.map (fun nq => nq.1) ++
        otherLoginOptions.map (fun sn => sn.2) := rfl
    have hval : namesOf (PlatformPage.getVisibleLoginOptions p) =
        ((standardLoginOptions.filter (fun nq => catchD (p.visLoc nq.2) false)) ++
         (otherLoginOptions.filter
            (fun sn => catchD (p.visNth (Query.css sn.1) 0) false)).map
           (fun sn => (sn.2, Query.css sn.1))).map (fun nq => nq.1) := rfl
    rw [hval, hreg, List.map_append]
    apply List.Sublist.append
    · exact List.Sublist.map _ (List.filter_sublist _)
    · rw [List.map_map]
      exact List.Sublist.map _ (List.filter_sublist _)

/-- Witness for C9: two calls on the unchanged email-only page agree, and
the returned names respect the registry order. -/
theorem claim_C9_witness :
    PlatformPage.getVisibleLoginOptions pEmailOnly =
      PlatformPage.getVisibleLoginOptions pEmailOnly ∧
    (namesOf (PlatformPage.getVisibleLoginOptions pEmailOnly)).Sublist
      loginRegistryNames :=
  claim_C9 pEmailOnly pEmailOnly (fun _ _ => rfl) (fun _ _ => rfl)

/-! ## Claim C10 -/

/-- **C10, claim as stated is false** (the "raises iff not visible"
direction): on a page whose logo probe reads visible but whose click fails,
`clickAngelCardLogo` raises — the unguarded click's failure propagates even
though the logo is visible. -/
theorem claim_C10_counterexample :
    catchD (pLogoClickFails.visNth (Query.css "img") 0) false = true ∧
    HomePage.clickAngelCardLogo pLogoClickFails =
      .error (.timeout "locator.click: Timeout 15000ms exceeded") :=
  ⟨rfl, rfl⟩

/-- **C10 (amended)**: when the logo probe reads invisible the method
raises its dedicated error; when it reads visible, a click (or load-wait)
failure propagates unchanged, and on a successful click followed by a
successful load wait the method returns — as a boolean, never an error —
whether the landed URL ends in `angelcard.us` or `angelcard.us/`. -/
theorem claim_C10_amended (p p2 : Page) :
    (catchD (p.visNth (Query.css "img") 0) false = false →
       HomePage.clickAngelCardLogo p =
         .error (.generic "AngelCard logo is not visible on the page")) ∧
    (catchD (p.visNth (Query.css "img") 0) false = true →
       p.clickNth (Query.css "img") 0 = .ok p2 →
       p2.loadState = .ok () →
       HomePage.clickAngelCardLogo p = .ok (matchesHomeUrl p2.url)) ∧
    (∀ e, catchD (p.visNth (Query.css "img") 0) false = true →
       p.clickNth (Query.css "img") 0 = .error e →
       HomePage.clickAngelCardLogo p = .error e) := by
  refine ⟨?_, ?_, ?_⟩
  · intro h
    simp [HomePage.clickAngelCardLogo, h]
  · intro h hc hl
    simp [HomePage.clickAngelCardLogo, h, hc, BasePage.waitForPageLoad, hl]
  · intro e h hc
    simp [HomePage.clickAngelCardLogo, h, hc]

/-- Witness for C10 (amended): a successful logo click landing on the home
URL returns `true`; an invisible logo raises the dedicated error. -/
theorem claim_C10_witness :
    HomePage.clickAngelCardLogo pLogoGood = .ok true ∧
    HomePage.clickAngelCardLogo pNoBanner =
      .error (.generic "AngelCard logo is not visible on the page") := by
  constructor
  · have h := (claim_C10_amended pLogoGood pInert).2.1 rfl rfl rfl
    rw [h]
    decide
  · exact (claim_C10_amended pNoBanner pInert).1 rfl
